import Mathlib

/-
Verification of the micro-log.h write pipeline, fanout writer and
settings parser (San7o/micro-log.h, src/micro-log.h), as a shallow
embedding in Lean 4.

Conventions of the embedding:
* machine integers become Nat (bitfields, error codes, enum values) or
  Int (printf %d arguments);
* the wall clock is a function from sample index to a `struct tm`
  value: the n-th call of time(NULL)/localtime inside one write is the
  n-th sample;
* printf rendering of each fragment becomes the Lean String the C call
  produces on the given arguments;
* each sink is a value of `SinkKind`; whether a concrete write call to
  a sink fails is an explicit parameter (fails : SinkKind → Bool);
* fallible calls return the C error code (0 = MICRO_LOG_OK) paired
  with their effect.
-/

set_option autoImplicit false

/-- Error code MICRO_LOG_OK from micro-log.h. -/
def MICRO_LOG_OK : Nat := 0

/-- Error code MICRO_LOG_ERROR_CLOSE_FILE from micro-log.h. -/
def MICRO_LOG_ERROR_CLOSE_FILE : Nat := 5

/-- Error code MICRO_LOG_ERROR_OPEN_FILE from micro-log.h. -/
def MICRO_LOG_ERROR_OPEN_FILE : Nat := 8

/-- Error code MICRO_LOG_ERROR_VPRINTF_SOCK_INET from micro-log.h. -/
def MICRO_LOG_ERROR_VPRINTF_SOCK_INET : Nat := 13

/-- Error code MICRO_LOG_ERROR_VPRINTF_SOCK_UNIX from micro-log.h. -/
def MICRO_LOG_ERROR_VPRINTF_SOCK_UNIX : Nat := 15

/-- Error code MICRO_LOG_ERROR_PRINTF_STDOUT from micro-log.h. -/
def MICRO_LOG_ERROR_PRINTF_STDOUT : Nat := 16

/-- Error code MICRO_LOG_ERROR_PRINTF_FILE : Nat from micro-log.h. -/
def MICRO_LOG_ERROR_PRINTF_FILE : Nat := 17

/-- Error code MICRO_LOG_ERROR_UNKNOWN_LEVEL from micro-log.h. -/
def MICRO_LOG_ERROR_UNKNOWN_LEVEL : Nat := 29

/-- Error code MICRO_LOG_ERROR_UNKNOWN_FLAG from micro-log.h. -/
def MICRO_LOG_ERROR_UNKNOWN_FLAG : Nat := 30

/-- Error code MICRO_LOG_ERROR_INVALID_INET_ADDR from micro-log.h. -/
def MICRO_LOG_ERROR_INVALID_INET_ADDR : Nat := 31

/-- Error code MICRO_LOG_ERROR_INVALID_PORT from micro-log.h. -/
def MICRO_LOG_ERROR_INVALID_PORT : Nat := 32

/-- Error code MICRO_LOG_ERROR_INVALID_PROTOCOL from micro-log.h. -/
def MICRO_LOG_ERROR_INVALID_PROTOCOL : Nat := 33

/-- Error code MICRO_LOG_ERROR_INVALID_FILE_SETTING from micro-log.h. -/
def MICRO_LOG_ERROR_INVALID_FILE_SETTING : Nat := 28

/-- Log level MICRO_LOG_LEVEL_DISABLED (= 6) from enum MicroLogLevel. -/
def MICRO_LOG_LEVEL_DISABLED : Nat := 6

/-- Sentinel _MICRO_LOG_LEVEL_MAX (= 7) from enum MicroLogLevel. -/
def MICRO_LOG_LEVEL_MAX : Nat := 7

/--
The MicroLog logger struct (micro-log.h, lines 315-340).  The file
handle is abstracted to an optional handle id (NULL becomes none); the
socket file descriptors play no role in the verified claims and the
pthread mutex is compiled out in the single-threaded build.
-/
structure MicroLog where
  flags_bitfield : Nat
  out_bitfield : Nat
  log_level : Nat
  file : Option Nat
deriving DecidableEq

/--
A sampled value of C `struct tm` as used by the write pipeline:
tm_year is years since 1900 and tm_mon is zero-based, exactly as
localtime(3) returns them.
-/
structure Tm where
  tm_year : Nat
  tm_mon : Nat
  tm_mday : Nat
  tm_hour : Nat
  tm_min : Nat
  tm_sec : Nat
deriving DecidableEq

/-- ANSI reset string MICRO_LOG_RST. -/
def MICRO_LOG_RST : String := "\x1B[0m"

/-- MICRO_LOG_LGRAY(x) wrapping from micro-log.h. -/
def lgrayWrap (s : String) : String := "\x1B[90m" ++ s ++ MICRO_LOG_RST

/-- MICRO_LOG_BOLD(x) wrapping from micro-log.h. -/
def boldWrap (s : String) : String := "\x1B[1m" ++ s ++ MICRO_LOG_RST

/-- The COLOR(x) helper macro of _micro_log_write_impl (line 1281). -/
def colorWrap (color : Bool) (s : String) : String :=
  if color then lgrayWrap s else s

/-- The COLOR2(x) helper macro of _micro_log_write_impl (line 1282). -/
def colorWrap2 (color : Bool) (s : String) : String :=
  if color then boldWrap s else s

/-- micro_log_level_string (micro-log.h lines 1240-1262), levels as Nat. -/
def micro_log_level_string (level : Nat) (color : Bool) : String :=
  if level = 0 then (if color then "\x1B[35m" ++ ("TRACE") ++ MICRO_LOG_RST else "TRACE")
  else if level = 1 then (if color then "\x1B[32m" ++ ("DEBUG") ++ MICRO_LOG_RST else "DEBUG")
  else if level = 2 then (if color then "\x1B[36m" ++ ("INFO") ++ MICRO_LOG_RST else "INFO")
  else if level = 3 then (if color then "\x1B[33m" ++ ("WARN") ++ MICRO_LOG_RST else "WARN")
  else if level = 4 then (if color then "\x1B[31m" ++ ("ERROR") ++ MICRO_LOG_RST else "ERROR")
  else if level = 5 then
    (if color then "\x1B[1m" ++ ("\x1B[31m" ++ ("FATAL") ++ MICRO_LOG_RST) ++ MICRO_LOG_RST
     else "FATAL")
  else if level = 6 then "DISABLED"
  else "UNKNOWN"

/-- Rendering of printf %02d for a nonnegative argument. -/
def pad2 (n : Nat) : String :=
  if n < 10 then ("0") ++ toString n else toString n

/-- Rendering of printf %-5s: left justify, pad to width 5 with spaces. -/
def padRight5 (s : String) : String :=
  s ++ String.mk (List.replicate (5 - s.length) ' ')

/-- The date fragment "%d-%02d-%02d" with tm_year+1900, tm_mon+1, tm_mday
(micro-log.h line 1318). -/
def dateStr (t : Tm) : String :=
  toString (t.tm_year + 1900) ++ ("-") ++ pad2 (t.tm_mon + 1) ++ ("-") ++ pad2 t.tm_mday

/-- The time fragment "%02d:%02d:%02d" with tm_hour, tm_min, tm_sec
(micro-log.h line 1342). -/
def timeStr (t : Tm) : String :=
  pad2 t.tm_hour ++ (":") ++ pad2 t.tm_min ++ (":") ++ pad2 t.tm_sec

/--
The fragments one metadata field contributes: in JSON mode the key
fragment, the value, the closing quote-comma, then the trailing space;
in plain mode just the value and the space.  This is the common shape
of every flag block of _micro_log_write_impl (lines 1308-1460).
-/
def fieldFrags (json : Bool) (key : String) (value : String) : List String :=
  (if json then [("\x22") ++ key ++ ("\x22: \x22")] else [])
  ++ [value]
  ++ (if json then ["\x22,"] else [])
  ++ [" "]

/--
Rendering of printf %s interleaved with literal characters: the
user message `fmt` with its string arguments substituted for the %s
conversions, as vfprintf produces it (only %s conversions occur in the
claims under verification).
-/
def formatChars : List Char → List String → List Char
  | [], _ => []
  | '%' :: 's' :: rest, a :: args => a.toList ++ formatChars rest args
  | c :: rest, args => c :: formatChars rest args

/-- The formatted user message. -/
def formatMsg (fmt : String) (args : List String) : String :=
  String.mk (formatChars fmt.toList args)

/--
The ordered fragment list one call of _micro_log_write_impl
(micro-log.h lines 1264-1495) passes to _micro_log_print_outputs /
_micro_log_print_outputs_args after the severity gate, in call order:

* flags_bitfield == MICRO_LOG_FLAG_NONE skips everything (line 1289);
* color is set from MICRO_LOG_FLAG_COLOR (bit 6) and forced off by
  MICRO_LOG_FLAG_JSON (bit 5, line 1303);
* fields in fixed order DATE (bit 1), TIME (bit 2), LEVEL (bit 0),
  PID (bit 3), TID (bit 4), FILE (bit 7), LINE (bit 8);
* DATE and TIME each take their own time(NULL) sample: sample 0 for
  DATE, and for TIME sample 1 when DATE is also enabled else sample 0
  (lines 1316 and 1340);
* then the JSON log key, or the "| " separator when
  flags_bitfield > 1 (line 1467), the message, the JSON closer, and
  the newline.
-/
def writeFragments (flags level : Nat) (clock : Nat → Tm) (pid tid : Int)
    (file : String) (line : Int) (msg : String) : List String :=
  if flags = 0 then [msg, "\n"] else
  let json := flags.testBit 5
  let color := if json then false else flags.testBit 6
  let dateOn := flags.testBit 1
  (if json then ["\x7b "] else [])
  ++ (if dateOn then fieldFrags json ("date") (colorWrap color (dateStr (clock 0))) else [])
  ++ (if flags.testBit 2 then
        fieldFrags json ("time")
          (colorWrap color (timeStr (clock (if dateOn then 1 else 0))))
      else [])
  ++ (if flags.testBit 0 then
        fieldFrags json ("log_level") (padRight5 (micro_log_level_string level color))
      else [])
  ++ (if flags.testBit 3 then fieldFrags json ("pid") (colorWrap color (toString pid)) else [])
  ++ (if flags.testBit 4 then fieldFrags json ("tid") (colorWrap color (toString tid)) else [])
  ++ (if flags.testBit 7 then fieldFrags json ("file") (colorWrap color file) else [])
  ++ (if flags.testBit 8 then fieldFrags json ("line") (colorWrap color (toString line)) else [])
  ++ (if json then ["\x22log\x22: \x22"] else
      if 1 < flags then [colorWrap2 color "| "] else [])
  ++ [msg]
  ++ (if json then ["\x22 \x7d"] else [])
  ++ ["\n"]

/--
The four sink kinds of the fanout writer, in the source's iteration
order MICRO_LOG_OUT_STDOUT, MICRO_LOG_OUT_FILE, MICRO_LOG_OUT_SOCK_INET,
MICRO_LOG_OUT_SOCK_UNIX (micro-log.h lines 1519-1567).
-/
inductive SinkKind where
  | console
  | file
  | inet
  | unix
deriving DecidableEq

/-- Bit index of each sink kind in out_bitfield (lines 220-227). -/
def sinkBitIdx : SinkKind → Nat
  | .console => 0
  | .file => 1
  | .inet => 2
  | .unix => 3

/--
The error code _micro_log_print_outputs_args returns when the write to
the given sink fails.  Note the unix branch of the source (line 1561)
sets MICRO_LOG_ERROR_VPRINTF_SOCK_INET, not
MICRO_LOG_ERROR_VPRINTF_SOCK_UNIX, which this embedding reproduces.
-/
def sinkWriteErr : SinkKind → Nat
  | .console => MICRO_LOG_ERROR_PRINTF_STDOUT
  | .file => MICRO_LOG_ERROR_PRINTF_FILE
  | .inet => MICRO_LOG_ERROR_VPRINTF_SOCK_INET
  | .unix => MICRO_LOG_ERROR_VPRINTF_SOCK_INET

/-- The fixed sink iteration order of _micro_log_print_outputs_args. -/
def sinkOrder : List SinkKind := [.console, .file, .inet, .unix]

/--
One fanout pass of _micro_log_print_outputs_args over a list of sink
kinds: each enabled sink gets the same fragment; the first failing
sink write stops the pass and yields that sink's error code, leaving
the fragment unwritten to the remaining sinks (goto done).
-/
def printOutputsGo (out : Nat) (fails : SinkKind → Bool) (frag : String) :
    List SinkKind → Nat × List (SinkKind × String)
  | [] => (MICRO_LOG_OK, [])
  | s :: rest =>
    if out.testBit (sinkBitIdx s) then
      if fails s then (sinkWriteErr s, [])
      else ((printOutputsGo out fails frag rest).1,
            (s, frag) :: (printOutputsGo out fails frag rest).2)
    else printOutputsGo out fails frag rest

/--
_micro_log_print_outputs_args (micro-log.h lines 1512-1572): write one
fragment to every enabled sink in the fixed order, returning the first
failure's error code and the (sink, fragment) writes performed.
-/
def micro_log_print_outputs_args (out : Nat) (fails : SinkKind → Bool)
    (frag : String) : Nat × List (SinkKind × String) :=
  printOutputsGo out fails frag sinkOrder

/--
Emission loop of the write pipeline: each fragment is passed through
the fanout writer in order; on the first fragment whose fanout fails
the pipeline stops (CHECK_ERROR / goto done) and later fragments are
not attempted.
-/
def emitFrags (out : Nat) (fails : SinkKind → Bool) :
    List String → Nat × List (SinkKind × String)
  | [] => (MICRO_LOG_OK, [])
  | f :: rest =>
    if (micro_log_print_outputs_args out fails f).1 ≠ MICRO_LOG_OK then
      micro_log_print_outputs_args out fails f
    else ((emitFrags out fails rest).1,
          (micro_log_print_outputs_args out fails f).2 ++ (emitFrags out fails rest).2)

/--
_micro_log_write_impl (micro-log.h lines 1264-1495), single-threaded
build (the lock macros are no-ops): gate by severity, then emit the
decorated fragment list through the fanout writer.  The result is the
returned error code and the ordered list of (sink, fragment) writes
that reached a sink.
-/
def micro_log_write_impl (lg : MicroLog) (level : Nat) (clock : Nat → Tm)
    (pid tid : Int) (file : String) (line : Int) (fmt : String)
    (args : List String) (fails : SinkKind → Bool) :
    Nat × List (SinkKind × String) :=
  if level < lg.log_level ∨ lg.log_level = MICRO_LOG_LEVEL_DISABLED then
    (MICRO_LOG_OK, [])
  else
    emitFrags lg.out_bitfield fails
      (writeFragments lg.flags_bitfield level clock pid tid file line
        (formatMsg fmt args))

/-- The fragments a given sink received, in order. -/
def sinkFrags (s : SinkKind) (ws : List (SinkKind × String)) : List String :=
  (ws.filter (fun p => p.1 = s)).map Prod.snd

/--
micro_log_set_level2 (micro-log.h lines 1019-1043), non-null logger:
reject levels above _MICRO_LOG_LEVEL_MAX, otherwise store the level.
-/
def micro_log_set_level2 (lg : MicroLog) (level : Nat) : Nat × MicroLog :=
  if level > MICRO_LOG_LEVEL_MAX then (MICRO_LOG_ERROR_UNKNOWN_LEVEL, lg)
  else (MICRO_LOG_OK, { lg with log_level := level })

/-- micro_log_set_flags2 (micro-log.h lines 1000-1017), non-null logger. -/
def micro_log_set_flags2 (lg : MicroLog) (flags : Nat) : Nat × MicroLog :=
  (MICRO_LOG_OK, { lg with flags_bitfield := flags })

/--
micro_log_set_file2 (micro-log.h lines 1062-1099), non-null logger.
`closeOk` is whether fclose of the currently attached file (if any)
succeeds, and `openResult` is the handle fopen(filename, "w+") yields
(none for NULL).  A failing close hits goto done with
MICRO_LOG_ERROR_CLOSE_FILE before any fopen; a failing open leaves the
logger unchanged; on success the FILE output bit is set and the new
handle stored.
-/
def micro_log_set_file2 (lg : MicroLog) (closeOk : Bool)
    (openResult : Option Nat) : Nat × MicroLog :=
  if lg.file ≠ none ∧ ¬closeOk then (MICRO_LOG_ERROR_CLOSE_FILE, lg)
  else
    match openResult with
    | none => (MICRO_LOG_ERROR_OPEN_FILE, lg)
    | some h =>
      (MICRO_LOG_OK, { lg with out_bitfield := lg.out_bitfield ||| 2, file := some h })

/--
strncmp(line, kw, strlen(kw)) == 0: the keyword is a prefix of the
scanned text (a shorter line terminates in a mismatching NUL byte).
-/
def matchKw : List Char → List Char → Bool
  | [], _ => true
  | _ :: _, [] => false
  | c :: cs, d :: ds => c = d && matchKw cs ds

/--
_micro_log_get_spaces (micro-log.h lines 634-640): count leading ' '
or tab characters, up to `max`.  The C scan stops at the NUL
terminator; the end of the char list plays that role.
-/
def getSpaces : List Char → Nat → Nat
  | _, 0 => 0
  | [], _ => 0
  | c :: rest, m + 1 =>
    if c = ' ' ∨ c = '\t' then getSpaces rest m + 1 else 0

/--
_micro_log_get_word_len (micro-log.h lines 642-651): length of the
run of characters before the next ' ', newline or tab, up to `max`.
All the lines the claims feed it are newline terminated, so the scan
always stops inside the string and the end of the list is never
reached.
-/
def getWordLen : List Char → Nat → Nat
  | _, 0 => 0
  | [], _ => 0
  | c :: rest, m + 1 =>
    if c = ' ' ∨ c = '\n' ∨ c = '\t' then 0 else getWordLen rest m + 1

/-- The character at byte offset i of the line buffer; past the end of
the line stands its NUL terminator. -/
def charAt (s : List Char) (i : Nat) : Char := s.getD i (Char.ofNat 0)

/-- atoi digit loop: accumulate leading decimal digits, stop at the first
non-digit. -/
def atoiDigits : List Char → Nat → Nat
  | [], acc => acc
  | c :: rest, acc =>
    if c.isDigit then atoiDigits rest (acc * 10 + (c.toNat - 48)) else acc

/-- atoi(3): skip leading whitespace, optional sign, then decimal digits;
a string with no leading digits yields 0. -/
def atoi (s : List Char) : Int :=
  match s.dropWhile (fun c => c = ' ' ∨ c = '\t' ∨ c = '\n') with
  | '-' :: rest => -(atoiDigits rest 0 : Int)
  | '+' :: rest => (atoiDigits rest 0 : Int)
  | other => (atoiDigits other 0 : Int)

/--
The flag keywords of the settings parser in the order the source tests
them (micro-log.h lines 737-781), each with its flag bit.
-/
def flagKws : List (List Char × Nat) :=
  [(("level").toList, 1), (("date").toList, 2), (("time").toList, 4),
   (("pid").toList, 8), (("tid").toList, 16), (("json").toList, 32),
   (("color").toList, 64), (("file").toList, 128), (("line").toList, 256)]

/-- First flag keyword matching at the scan position, with its bit and
its length; none reproduces the source's unknown-flag else branch. -/
def findKw (s : List Char) : Option (Nat × Nat) :=
  (flagKws.find? (fun p => matchKw p.1 s)).map (fun p => (p.2, p.1.length))

/--
The token loop of the `flags:` directive (micro-log.h lines 735-790):
while pos <= len, match one keyword (else the unknown-flag error,
rendered as none), advance past it, break at a newline, then skip
whitespace.  `fuel` only bounds the recursion: each iteration advances
pos by at least the matched keyword's length (>= 3), so with
fuel = len + 1 the zero-fuel case is never reached.
-/
def parseFlagsLoop (s : List Char) (len : Nat) :
    Nat → Nat → Nat → Option Nat
  | 0, _, _ => none
  | fuel + 1, pos, flags =>
    if pos ≤ len then
      match findKw (s.drop pos) with
      | none => none
      | some (bit, klen) =>
        let pos2 := pos + klen
        let flags2 := flags ||| bit
        if charAt s pos2 = '\n' then some flags2
        else parseFlagsLoop s len fuel
               (pos2 + getSpaces (s.drop pos2) (len - pos2)) flags2
    else some flags

/--
State threaded through the settings parser: the logger being mutated,
plus the socket-attach calls issued so far (addr, port, protocol for
inet; path for unix).  An empty call list means no socket was ever
created or connected.
-/
structure ParseSt where
  lg : MicroLog
  inetCalls : List (String × Int × Nat)
  unixCalls : List String
deriving DecidableEq

/--
The environment of the settings parser: outcomes of the operating
system calls its mutators perform.  fileCloseOk and fileOpen feed
micro_log_set_file2; inetResult and unixResult are the error codes the
socket-attach mutators return (socket creation, connect).
-/
structure SettingsEnv where
  fileCloseOk : Bool
  fileOpen : String → Option Nat
  inetResult : String → Int → Nat → Nat
  unixResult : String → Nat

/-- Record and perform an inet socket attach (micro_log_set_socket_inet):
on success the inet output bit is set. -/
def inetAttach (env : SettingsEnv) (st : ParseSt) (addr : String)
    (port : Int) (proto : Nat) : Nat × ParseSt :=
  let e := env.inetResult addr port proto
  (e, { st with
        inetCalls := st.inetCalls ++ [(addr, port, proto)],
        lg := if e = MICRO_LOG_OK then
                { st.lg with out_bitfield := st.lg.out_bitfield ||| 4 }
              else st.lg })

/--
The `inet:` directive branch (micro-log.h lines 808-881): skip
whitespace, take the address word (empty is the invalid-address
error), skip whitespace, take the port word (empty is the invalid-port
error), atoi it, re-check the port word length (the source repeats the
port_len == 0 test after atoi, line 844, so the converted value is
never validated), skip whitespace, take the protocol word (empty or
neither tcp nor udp is the invalid-protocol error), then attach the
socket.
-/
def parseInet (env : SettingsEnv) (st : ParseSt) (s : List Char)
    (len : Nat) : Nat × ParseSt :=
  let pos0 := 6 + getSpaces (s.drop 6) (len - 6)
  let addrLen := getWordLen (s.drop pos0) (len - pos0)
  if addrLen = 0 then (MICRO_LOG_ERROR_INVALID_INET_ADDR, st)
  else
    let addr := String.mk ((s.drop pos0).take addrLen)
    let pos1 := pos0 + addrLen
    let pos2 := pos1 + getSpaces (s.drop pos1) (len - pos1)
    let portLen := getWordLen (s.drop pos2) (len - pos2)
    if portLen = 0 then (MICRO_LOG_ERROR_INVALID_PORT, st)
    else
      let port := atoi ((s.drop pos2).take portLen)
      if portLen = 0 then (MICRO_LOG_ERROR_INVALID_PORT, st)
      else
        let pos3 := pos2 + portLen
        let pos4 := pos3 + getSpaces (s.drop pos3) (len - pos3)
        let protoLen := getWordLen (s.drop pos4) (len - pos4)
        if protoLen = 0 then (MICRO_LOG_ERROR_INVALID_PROTOCOL, st)
        else if matchKw (("tcp").toList) (s.drop pos4) then
          inetAttach env st addr port 0
        else if matchKw (("udp").toList) (s.drop pos4) then
          inetAttach env st addr port 1
        else (MICRO_LOG_ERROR_INVALID_PROTOCOL, st)

/--
One iteration of the getline loop of micro_log_from_file2 (micro-log.h
lines 683-900) on one line of the settings file.  The buffer length
passed to the scanning helpers is modelled as the line's string
length; getline's larger allocation size only relaxes a bound that the
newline-terminated lines of the claims never reach.  The level names
are matched by strncmp of the bare keyword, and the level mutator's
return value is discarded, exactly as in the source.
-/
def parseLine (env : SettingsEnv) (st : ParseSt) (lineStr : String) :
    Nat × ParseSt :=
  let s := lineStr.toList
  let len := s.length
  if matchKw (("#").toList) s then (MICRO_LOG_OK, st)
  else if matchKw (("\n").toList) s then (MICRO_LOG_OK, st)
  else if matchKw (("level:").toList) s then
    let rest := s.drop (6 + getSpaces (s.drop 6) (len - 6))
    if matchKw (("trace").toList) rest then
      (MICRO_LOG_OK, { st with lg := (micro_log_set_level2 st.lg 0).2 })
    else if matchKw (("debug").toList) rest then
      (MICRO_LOG_OK, { st with lg := (micro_log_set_level2 st.lg 1).2 })
    else if matchKw (("info").toList) rest then
      (MICRO_LOG_OK, { st with lg := (micro_log_set_level2 st.lg 2).2 })
    else if matchKw (("warn").toList) rest then
      (MICRO_LOG_OK, { st with lg := (micro_log_set_level2 st.lg 3).2 })
    else if matchKw (("error").toList) rest then
      (MICRO_LOG_OK, { st with lg := (micro_log_set_level2 st.lg 4).2 })
    else if matchKw (("fatal").toList) rest then
      (MICRO_LOG_OK, { st with lg := (micro_log_set_level2 st.lg 5).2 })
    else if matchKw (("disabled").toList) rest then
      (MICRO_LOG_OK, { st with lg := (micro_log_set_level2 st.lg 6).2 })
    else (MICRO_LOG_ERROR_UNKNOWN_LEVEL, st)
  else if matchKw (("flags:").toList) s then
    let pos := 6 + getSpaces (s.drop 6) (len - 6)
    match parseFlagsLoop s len (len + 1) pos 0 with
    | none => (MICRO_LOG_ERROR_UNKNOWN_FLAG, st)
    | some flags =>
      let r := micro_log_set_flags2 st.lg flags
      (r.1, { st with lg := r.2 })
  else if matchKw (("file:").toList) s then
    let pos := 5 + getSpaces (s.drop 5) (len - 6)
    let wlen := getWordLen (s.drop pos) (len - pos)
    let path := String.mk ((s.drop pos).take wlen)
    let r := micro_log_set_file2 st.lg env.fileCloseOk (env.fileOpen path)
    (r.1, { st with lg := r.2 })
  else if matchKw (("inet:").toList) s then
    parseInet env st s len
  else if matchKw (("unix:").toList) s then
    let path := String.mk (s.drop (5 + getSpaces (s.drop 5) (len - 6)))
    let e := env.unixResult path
    (e, { st with
          unixCalls := st.unixCalls ++ [path],
          lg := if e = MICRO_LOG_OK then
                  { st.lg with out_bitfield := st.lg.out_bitfield ||| 8 }
                else st.lg })
  else (MICRO_LOG_ERROR_INVALID_FILE_SETTING, st)

/--
micro_log_from_file2 (micro-log.h lines 653-913) over the list of
lines getline yields: apply each directive in order; the first
directive error aborts the loop and is returned (goto done), leaving
every earlier mutation in place; exhausting the lines returns
MICRO_LOG_OK (the final fclose of the settings file is taken to
succeed).
-/
def micro_log_from_file2 (env : SettingsEnv) (st : ParseSt) :
    List String → Nat × ParseSt
  | [] => (MICRO_LOG_OK, st)
  | l :: rest =>
    if (parseLine env st l).1 ≠ MICRO_LOG_OK then parseLine env st l
    else micro_log_from_file2 env (parseLine env st l).2 rest

/-- The fixed clock of the C1 scenario: every sample reads
2025-01-02 03:04:05 (tm_year 125, tm_mon 0). -/
def c1Clock : Nat → Tm := fun _ => ⟨125, 0, 2, 3, 4, 5⟩

/-- A clock that ticks across midnight of new year's eve between
sample 0 and sample 1. -/
def c5Clock : Nat → Tm :=
  fun n => if n = 0 then ⟨125, 11, 31, 23, 59, 59⟩ else ⟨126, 0, 1, 0, 0, 0⟩

/--
C10: micro_log_set_level2 on a non-null logger returns
MICRO_LOG_ERROR_UNKNOWN_LEVEL exactly when the level is strictly
greater than _MICRO_LOG_LEVEL_MAX = 7, and level = 7 itself (not a
valid severity) is accepted with MICRO_LOG_OK and stored as the
logger's threshold.
-/
theorem c10_set_level_range (lg : MicroLog) (level : Nat) :
    ((micro_log_set_level2 lg level).1 = MICRO_LOG_ERROR_UNKNOWN_LEVEL
      ↔ MICRO_LOG_LEVEL_MAX < level)
    ∧ micro_log_set_level2 lg MICRO_LOG_LEVEL_MAX
       = (MICRO_LOG_OK, { lg with log_level := MICRO_LOG_LEVEL_MAX }) := by
  refine ⟨?_, ?_⟩
  · by_cases h : MICRO_LOG_LEVEL_MAX < level
    · simp [micro_log_set_level2, h, MICRO_LOG_ERROR_UNKNOWN_LEVEL]
    · simp only [micro_log_set_level2, gt_iff_lt, if_neg h]
      simp only [MICRO_LOG_OK, MICRO_LOG_ERROR_UNKNOWN_LEVEL]
      omega
  · simp [micro_log_set_level2, MICRO_LOG_LEVEL_MAX, MICRO_LOG_OK]

/--
C2: for every logger and record, if the record's level is strictly
below the logger's threshold or the threshold is DISABLED, the write
call performs no sink write at all and returns MICRO_LOG_OK.
-/
theorem c2_gate_no_output (lg : MicroLog) (level : Nat) (clock : Nat → Tm)
    (pid tid : Int) (file : String) (line : Int) (fmt : String)
    (args : List String) (fails : SinkKind → Bool)
    (h : level < lg.log_level ∨ lg.log_level = MICRO_LOG_LEVEL_DISABLED) :
    micro_log_write_impl lg level clock pid tid file line fmt args fails
      = (MICRO_LOG_OK, []) := by
  unfold micro_log_write_impl
  rw [if_pos h]

/-- Witness for c2_gate_no_output at level INFO against threshold WARN. -/
theorem c2_gate_no_output_witness :
    ((2 : Nat) < (⟨7, 1, 3, none⟩ : MicroLog).log_level
      ∨ (⟨7, 1, 3, none⟩ : MicroLog).log_level = MICRO_LOG_LEVEL_DISABLED)
    ∧ micro_log_write_impl ⟨7, 1, 3, none⟩ 2 c1Clock 0 0 ("f") 0 ("x") []
        (fun _ => false) = (MICRO_LOG_OK, []) :=
  ⟨Or.inl (by decide),
   c2_gate_no_output ⟨7, 1, 3, none⟩ 2 c1Clock 0 0 ("f") 0 ("x") []
     (fun _ => false) (Or.inl (by decide))⟩

/--
C5 (divergence evaluation): with DATE and TIME both enabled, the date
field is rendered from wall-clock sample 0 and the time field from the
separate sample 1 — the source calls time(NULL) once in the DATE block
and again in the TIME block — so a clock that ticks across midnight
between the two calls yields a line whose date (2025-12-31) and time
(00:00:00) come from different instants.
-/
theorem c5_two_time_samples_eval :
    writeFragments 6 2 c5Clock 0 0 ("f") 0 ("msg")
      = ["2025-12-31", " ", "00:00:00", " ", "| ", "msg", "\n"]
    ∧ c5Clock 0 ≠ c5Clock 1 := by
  decide

/--
C6 (divergence evaluation): a failing write on the UNIX-socket sink is
reported with MICRO_LOG_ERROR_VPRINTF_SOCK_INET, the inet socket's
error code, not with the (defined but unused)
MICRO_LOG_ERROR_VPRINTF_SOCK_UNIX code, so the returned error kind
does not identify the unix sink as the one that failed.
-/
theorem c6_unix_fail_reports_inet_error :
    micro_log_print_outputs_args 8 (fun s => s == SinkKind.unix) ("x")
      = (MICRO_LOG_ERROR_VPRINTF_SOCK_INET, [])
    ∧ MICRO_LOG_ERROR_VPRINTF_SOCK_INET ≠ MICRO_LOG_ERROR_VPRINTF_SOCK_UNIX := by
  decide

/--
C9 (counterexample): on a logger with an attached file (handle 1),
when closing that file fails, micro_log_set_file2 returns
MICRO_LOG_ERROR_CLOSE_FILE with the logger unchanged: the new file
(handle 2) is neither opened nor attached, so a close failure does
block the replacement.
-/
theorem c9_close_failure_blocks_replacement :
    micro_log_set_file2 ⟨0, 1, 0, some 1⟩ false (some 2)
      = (MICRO_LOG_ERROR_CLOSE_FILE, ⟨0, 1, 0, some 1⟩)
    ∧ (micro_log_set_file2 ⟨0, 1, 0, some 1⟩ false (some 2)).2.file ≠ some 2 := by
  decide

/--
C9 (amended): attaching a new file first closes the old one; a close
failure is reported as MICRO_LOG_ERROR_CLOSE_FILE and aborts the
replacement, leaving the logger unchanged, while a successful close
lets the new file be attached and the FILE output bit set.
-/
theorem c9_close_failure_aborts (lg : MicroLog) (h hnew : Nat)
    (hf : lg.file = some h) :
    micro_log_set_file2 lg false (some hnew) = (MICRO_LOG_ERROR_CLOSE_FILE, lg)
    ∧ micro_log_set_file2 lg true (some hnew)
       = (MICRO_LOG_OK,
          { lg with out_bitfield := lg.out_bitfield ||| 2, file := some hnew }) := by
  constructor
  · simp [micro_log_set_file2, hf]
  · simp [micro_log_set_file2]

/-- Witness for c9_close_failure_aborts on a logger holding file handle 1. -/
theorem c9_close_failure_aborts_witness :
    (⟨0, 1, 0, some 1⟩ : MicroLog).file = some 1
    ∧ (micro_log_set_file2 ⟨0, 1, 0, some 1⟩ false (some 2)
         = (MICRO_LOG_ERROR_CLOSE_FILE, ⟨0, 1, 0, some 1⟩)
       ∧ micro_log_set_file2 ⟨0, 1, 0, some 1⟩ true (some 2)
         = (MICRO_LOG_OK, ⟨0, 1 ||| 2, 0, some 2⟩)) :=
  ⟨rfl, c9_close_failure_aborts ⟨0, 1, 0, some 1⟩ 1 2 rfl⟩

/--
C7 (divergence evaluation): on the settings line
`inet: 127.0.0.1  tcp` (double space where the port should stand), the
parser skips all the whitespace, consumes `tcp` as the port token
(atoi yields 0, never validated because the source re-checks port_len
instead of the converted value), then finds an empty protocol token
and aborts with MICRO_LOG_ERROR_INVALID_PROTOCOL — not
MICRO_LOG_ERROR_INVALID_PORT — leaving any starting state untouched:
in particular no socket attach is ever attempted.
-/
theorem c7_inet_double_space_invalid_protocol :
    (∀ (env : SettingsEnv) (st : ParseSt),
      micro_log_from_file2 env st [("inet: 127.0.0.1  tcp\n")]
        = (MICRO_LOG_ERROR_INVALID_PROTOCOL, st))
    ∧ MICRO_LOG_ERROR_INVALID_PROTOCOL ≠ MICRO_LOG_ERROR_INVALID_PORT := by
  exact ⟨fun env st => rfl, by decide⟩

/--
C8: a settings file whose second line carries the unknown flag token
`bogus` aborts the parse with MICRO_LOG_ERROR_UNKNOWN_FLAG: the flags
already matched on that line (level, date) are not applied — the
flags bitfield keeps its initial value — while the WARN level applied
by the earlier `level:` line remains, and the following line is never
processed (the level is not overwritten by `level: error`).
-/
theorem c8_unknown_flag_aborts (env : SettingsEnv) (lg : MicroLog) :
    micro_log_from_file2 env ⟨lg, [], []⟩
      [("level: warn\n"), ("flags: level date bogus\n"), ("level: error\n")]
      = (MICRO_LOG_ERROR_UNKNOWN_FLAG, ⟨{ lg with log_level := 3 }, [], []⟩) := rfl

/--
C3: when the JSON flag (bit 5) is enabled, the rendered fragments are
exactly those of the rendering with the COLOR flag (bit 6) cleared —
447 is the flag mask with every bit except COLOR — so the COLOR toggle
has no effect on the output and no color styling is applied.
-/
theorem c3_json_forces_color_off (flags level : Nat) (clock : Nat → Tm)
    (pid tid : Int) (file : String) (line : Int) (msg : String)
    (h : flags.testBit 5 = true) :
    writeFragments flags level clock pid tid file line msg
      = writeFragments (flags &&& 447) level clock pid tid file line msg
    ∧ (flags &&& 447).testBit 6 = false := by
  have h0 : flags ≠ 0 := by
    intro e
    rw [e, Nat.zero_testBit] at h
    exact Bool.false_ne_true h
  have h5m : (flags &&& 447).testBit 5 = true := by
    rw [Nat.testBit_and, h]
    decide
  have h0m : flags &&& 447 ≠ 0 := by
    intro e
    rw [e, Nat.zero_testBit] at h5m
    exact Bool.false_ne_true h5m
  refine ⟨?_, ?_⟩
  · unfold writeFragments
    rw [if_neg h0, if_neg h0m]
    simp only [Nat.testBit_and,
      (by decide : Nat.testBit 447 0 = true),
      (by decide : Nat.testBit 447 1 = true),
      (by decide : Nat.testBit 447 2 = true),
      (by decide : Nat.testBit 447 3 = true),
      (by decide : Nat.testBit 447 4 = true),
      (by decide : Nat.testBit 447 5 = true),
      (by decide : Nat.testBit 447 6 = false),
      (by decide : Nat.testBit 447 7 = true),
      (by decide : Nat.testBit 447 8 = true),
      Bool.and_true, Bool.and_false, h]
    simp
  · rw [Nat.testBit_and, (by decide : Nat.testBit 447 6 = false), Bool.and_false]

/-- Witness for c3_json_forces_color_off at flags = JSON ||| COLOR = 96. -/
theorem c3_json_forces_color_off_witness :
    Nat.testBit 96 5 = true
    ∧ (writeFragments 96 2 c1Clock 0 0 ("f") 0 ("hi")
         = writeFragments (96 &&& 447) 2 c1Clock 0 0 ("f") 0 ("hi")
       ∧ ((96 : Nat) &&& 447).testBit 6 = false) :=
  ⟨by decide, c3_json_forces_color_off 96 2 c1Clock 0 0 ("f") 0 ("hi") (by decide)⟩

/--
C4 (counterexample): with flags = MICRO_LOG_FLAG_LEVEL only
(bitfield 1), the level field is emitted but no "| " separator
precedes the message, because the source guards the separator with
flags_bitfield > 1, not with "some field was emitted".
-/
theorem c4_level_only_no_separator :
    writeFragments 1 2 c1Clock 0 0 ("f") 0 ("hello")
      = ["INFO ", " ", "hello", "\n"]
    ∧ ("| ") ∉ writeFragments 1 2 c1Clock 0 0 ("f") 0 ("hello") := by
  decide

/--
C4 (amended): in plain (non-JSON) mode the "| " separator (bold when
COLOR is enabled) is emitted immediately before the user message if
and only if the flags bitfield value is greater than 1; in particular
flags = NONE writes the message bare, a single enabled field other
than LEVEL gets the separator, and LEVEL alone (bitfield value 1) does
not.
-/
theorem c4_separator_iff_flags_gt_one (flags level : Nat) (clock : Nat → Tm)
    (pid tid : Int) (file : String) (line : Int) (msg : String)
    (h : flags.testBit 5 = false) :
    ∃ pre : List String,
      writeFragments flags level clock pid tid file line msg
        = pre ++ (if 1 < flags then [colorWrap2 (flags.testBit 6) ("| ")] else [])
          ++ [msg, "\n"] := by
  by_cases h0 : flags = 0
  · refine ⟨[], ?_⟩
    subst h0
    simp [writeFragments]
  · refine ⟨(if flags.testBit 1 then
        fieldFrags false ("date") (colorWrap (flags.testBit 6) (dateStr (clock 0)))
      else [])
      ++ (if flags.testBit 2 then
            fieldFrags false ("time")
              (colorWrap (flags.testBit 6)
                (timeStr (clock (if flags.testBit 1 then 1 else 0))))
          else [])
      ++ (if flags.testBit 0 then
            fieldFrags false ("log_level")
              (padRight5 (micro_log_level_string level (flags.testBit 6)))
          else [])
      ++ (if flags.testBit 3 then
            fieldFrags false ("pid") (colorWrap (flags.testBit 6) (toString pid))
          else [])
      ++ (if flags.testBit 4 then
            fieldFrags false ("tid") (colorWrap (flags.testBit 6) (toString tid))
          else [])
      ++ (if flags.testBit 7 then
            fieldFrags false ("file") (colorWrap (flags.testBit 6) file)
          else [])
      ++ (if flags.testBit 8 then
            fieldFrags false ("line") (colorWrap (flags.testBit 6) (toString line))
          else []), ?_⟩
    unfold writeFragments
    rw [if_neg h0]
    simp [h]

/-- Witness for c4_separator_iff_flags_gt_one at flags = DATE only. -/
theorem c4_separator_iff_flags_gt_one_witness :
    Nat.testBit 2 5 = false
    ∧ ∃ pre : List String,
        writeFragments 2 2 c1Clock 0 0 ("f") 0 ("hi")
          = pre ++ (if 1 < (2 : Nat) then [colorWrap2 (Nat.testBit 2 6) ("| ")] else [])
            ++ ["hi", "\n"] :=
  ⟨by decide, c4_separator_iff_flags_gt_one 2 2 c1Clock 0 0 ("f") 0 ("hi") (by decide)⟩

/-- When no sink write fails, a fanout pass writes the fragment to
exactly the enabled sinks, in the fixed iteration order, and succeeds. -/
theorem printOutputsGo_noFail (out : Nat) (f : String) (order : List SinkKind) :
    printOutputsGo out (fun _ => false) f order
      = (MICRO_LOG_OK,
         (order.filter (fun s => out.testBit (sinkBitIdx s))).map (fun s => (s, f))) := by
  induction order with
  | nil => rfl
  | cons a rest ih =>
    by_cases ha : out.testBit (sinkBitIdx a) = true <;>
      simp [printOutputsGo, List.filter_cons, ha, ih]

/-- The fragments a sink received distribute over concatenation of
write lists. -/
theorem sinkFrags_append (s : SinkKind) (l1 l2 : List (SinkKind × String)) :
    sinkFrags s (l1 ++ l2) = sinkFrags s l1 ++ sinkFrags s l2 := by
  simp [sinkFrags, List.filter_append]

/-- An enabled sink receives exactly one copy of a fragment from one
fanout pass over the sink order. -/
theorem sinkFrags_sinkOrder (out : Nat) (f : String) (s : SinkKind)
    (h : out.testBit (sinkBitIdx s) = true) :
    sinkFrags s ((sinkOrder.filter (fun t => out.testBit (sinkBitIdx t))).map
      (fun t => (t, f))) = [f] := by
  cases s <;>
    by_cases h0 : out.testBit 0 = true <;>
    by_cases h1 : out.testBit 1 = true <;>
    by_cases h2 : out.testBit 2 = true <;>
    by_cases h3 : out.testBit 3 = true <;>
    simp_all [sinkOrder, sinkBitIdx, sinkFrags, List.filter_cons]

/-- With no failing sink, emitting a fragment list succeeds and every
enabled sink receives exactly that fragment list. -/
theorem emitFrags_noFail (out : Nat) (s : SinkKind)
    (h : out.testBit (sinkBitIdx s) = true) (frags : List String) :
    (emitFrags out (fun _ => false) frags).1 = MICRO_LOG_OK
    ∧ sinkFrags s (emitFrags out (fun _ => false) frags).2 = frags := by
  induction frags with
  | nil => exact ⟨rfl, rfl⟩
  | cons f rest ih =>
    have hp : micro_log_print_outputs_args out (fun _ => false) f
        = (MICRO_LOG_OK,
           (sinkOrder.filter (fun t => out.testBit (sinkBitIdx t))).map
             (fun t => (t, f))) :=
      printOutputsGo_noFail out f sinkOrder
    have hone := sinkFrags_sinkOrder out f s h
    constructor
    · simp [emitFrags, hp, ih.1]
    · simp [emitFrags, hp, sinkFrags_append, hone, ih.2]

/--
C1: on a logger with flags DATE, TIME and LEVEL (bitfield 7), JSON and
COLOR off, threshold TRACE, a record at level INFO with format
"hello %s" and argument "world" on the fixed clock reading
2025-01-02 03:04:05 succeeds and delivers to every enabled sink
exactly the line "2025-01-02 03:04:05 INFO  | hello world\n" (two
spaces after INFO, one trailing newline).
-/
theorem c1_pipeline_line (out : Nat) (s : SinkKind) (pid tid : Int)
    (file : String) (line : Int)
    (h : out.testBit (sinkBitIdx s) = true) :
    (micro_log_write_impl ⟨7, out, 0, none⟩ 2 c1Clock pid tid file line
       ("hello %s") [("world")] (fun _ => false)).1 = MICRO_LOG_OK
    ∧ String.join (sinkFrags s
        (micro_log_write_impl ⟨7, out, 0, none⟩ 2 c1Clock pid tid file line
          ("hello %s") [("world")] (fun _ => false)).2)
      = "2025-01-02 03:04:05 INFO  | hello world\n" := by
  have hg : micro_log_write_impl ⟨7, out, 0, none⟩ 2 c1Clock pid tid file line
      ("hello %s") [("world")] (fun _ => false)
      = emitFrags out (fun _ => false)
          ["2025-01-02", " ", "03:04:05", " ", "INFO ", " ", "| ",
           "hello world", "\n"] := by
    have hfr : writeFragments 7 2 c1Clock pid tid file line
        (formatMsg ("hello %s") [("world")])
        = ["2025-01-02", " ", "03:04:05", " ", "INFO ", " ", "| ",
           "hello world", "\n"] := rfl
    rw [← hfr]
    unfold micro_log_write_impl MICRO_LOG_LEVEL_DISABLED
    norm_num
  obtain ⟨he, hs⟩ := emitFrags_noFail out s h
    ["2025-01-02", " ", "03:04:05", " ", "INFO ", " ", "| ", "hello world", "\n"]
  rw [hg, he, hs]
  exact ⟨rfl, rfl⟩

/-- Witness for c1_pipeline_line with the console sink enabled. -/
theorem c1_pipeline_line_witness :
    (1 : Nat).testBit (sinkBitIdx SinkKind.console) = true
    ∧ ((micro_log_write_impl ⟨7, 1, 0, none⟩ 2 c1Clock 0 0 ("f") 0
          ("hello %s") [("world")] (fun _ => false)).1 = MICRO_LOG_OK
       ∧ String.join (sinkFrags SinkKind.console
           (micro_log_write_impl ⟨7, 1, 0, none⟩ 2 c1Clock 0 0 ("f") 0
             ("hello %s") [("world")] (fun _ => false)).2)
         = "2025-01-02 03:04:05 INFO  | hello world\n") :=
  ⟨by decide, c1_pipeline_line 1 SinkKind.console 0 0 ("f") 0 (by decide)⟩
